import Mathlib

/-!
Verification of the mlflow trace/span/assessment data model and the
prediction-context propagation mechanism, shallowly embedded from
`mlflow/entities/trace.py` and `mlflow/pyfunc/context.py`.
-/

namespace Mlflow

/-! ## Python value model for `mlflow/pyfunc/context.py`

The functions of `context.py` are dynamically typed: `set_prediction_context`
may receive any Python object, and `Context.update` / `setattr` may store any
Python object in any field. `PyVal` models the Python values these code paths
can meet; a `Context` dataclass instance is the `context` constructor, whose
five components are the dataclass's five fields (`request_id`, `is_evaluate`,
`dependencies_schemas`, `model_id`, `endpoint_name`), in declaration order. -/

inductive PyVal where
  | none
  | bool (b : Bool)
  | int (n : Int)
  | str (s : String)
  | context (request_id is_evaluate dependencies_schemas model_id endpoint_name : PyVal)
  deriving DecidableEq

/-- Python truthiness (`if context:`): `None`, `False`, `0` and `""` are falsy;
a dataclass instance (no `__bool__`/`__len__`) is always truthy. -/
def PyVal.truthy : PyVal → Bool
  | .none => false
  | .bool b => b
  | .int n => n != 0
  | .str s => s != ""
  | .context _ _ _ _ _ => true

/-- The check `isinstance(x, Context)`. -/
def PyVal.isContext : PyVal → Bool
  | .context _ _ _ _ _ => true
  | _ => false

/-- Python `repr()` of a value, as far as this model needs it (the dataclass
repr generated for `Context`). -/
def PyVal.pyRepr : PyVal → String
  | .none => "None"
  | .bool true => "True"
  | .bool false => "False"
  | .int n => toString n
  | .str s => "'" ++ s ++ "'"
  | .context r e d m en =>
      "Context(request_id=" ++ r.pyRepr ++ ", is_evaluate=" ++ e.pyRepr ++
        ", dependencies_schemas=" ++ d.pyRepr ++ ", model_id=" ++ m.pyRepr ++
        ", endpoint_name=" ++ en.pyRepr ++ ")"

/-- Python `str()` of a value, as used by an f-string: same as `repr` except
that a string renders without quotes. -/
def PyVal.pyStr : PyVal → String
  | .str s => s
  | v => v.pyRepr

/-- The data attributes of a `Context` instance, in declaration order. -/
def contextFields : List String :=
  ["request_id", "is_evaluate", "dependencies_schemas", "model_id", "endpoint_name"]

/-- Whether a character sequence opens with a double underscore. -/
def doubleUnderscore : List Char → Bool
  | '_' :: '_' :: _ => true
  | _ => false

/-- A dunder-shaped attribute name: starts and ends with a double
underscore. -/
def isDunderName (k : String) : Bool :=
  doubleUnderscore k.data && doubleUnderscore k.data.reverse

/-- Modelled from Python's attribute lookup (external runtime semantics): the
names `hasattr` finds on a `Context` instance. Besides the five data fields
these are the `update` method defined in the class body and the attributes
the dataclass decorator and `object` supply, all of which are dunder-named
(`__init__`, `__repr__`, `__eq__`, `__dataclass_fields__`, `__class__`, ...).
Dunder-shaped names are conservatively treated as present, so
`contextAttrNames k = false` implies the Python lookup fails too. -/
def contextAttrNames (k : String) : Bool :=
  contextFields.contains k || k == "update" || isDunderName k

/-- Python `hasattr(self, key)` on a `Context` instance. -/
def PyVal.hasattr (v : PyVal) (k : String) : Bool :=
  v.isContext && contextAttrNames k

/-- Python `setattr(self, key, value)` on a `Context` instance. A name that is
not a data field but passes the `hasattr` check (the `update` method, dunder
names) is stored in the instance dict in Python, shadowing the class
attribute; that shadowing store is not tracked here — the theorems below
observe only the data fields and the raised error, on which the model and the
program agree. -/
def PyVal.setattr : PyVal → String → PyVal → PyVal
  | .context r e d m en, k, v =>
      if k = "request_id" then .context v e d m en
      else if k = "is_evaluate" then .context r v d m en
      else if k = "dependencies_schemas" then .context r e v m en
      else if k = "model_id" then .context r e d v en
      else if k = "endpoint_name" then .context r e d m v
      else .context r e d m en
  | v, _, _ => v

/-- A raised Python exception: its class and its message. -/
structure PyError where
  kind : String
  msg : String
  deriving DecidableEq

/-- `Context.__init__`: the five named parameters are stored; extra keyword
arguments are collected by `**kwargs` and never used (accepted for backward
compatibility, per the source comment), so no error is raised for them and no
attribute is created from them. -/
def Context.init (request_id is_evaluate dependencies_schemas model_id endpoint_name : PyVal)
    (_kwargs : List (String × PyVal)) : PyVal :=
  .context request_id is_evaluate dependencies_schemas model_id endpoint_name

/-- `Context.update(**kwargs)`: iterate the keyword arguments in order; a key
with `hasattr(self, key)` is assigned with `setattr`, otherwise an
`AttributeError` naming the key is raised. The returned pair is (the raised
error, if any; the state of the mutated-in-place object when the call
returns or raises). -/
def Context.update : PyVal → List (String × PyVal) → Option PyError × PyVal
  | c, [] => (Option.none, c)
  | c, (k, v) :: rest =>
      if c.hasattr k then Context.update (c.setattr k v) rest
      else (Option.some ⟨"AttributeError", "Context has no attribute named '" ++ k ++ "'"⟩, c)

/-! ## The ContextVar `_PREDICTION_REQUEST_CTX`

`_PREDICTION_REQUEST_CTX = ContextVar(..., default=None)` is execution-local
storage (Python `contextvars`, external standard library): each logical
execution (thread or task) sees its own value of the variable. `CtxState` is
the value the variable holds for one fixed logical execution, `None` when
unset. `ContextVar.set` returns a token from which `ContextVar.reset`
restores the value the variable held before that `set`. -/

/-- The value `_PREDICTION_REQUEST_CTX` holds for one logical execution. -/
abbrev CtxState := PyVal

/-- `_PREDICTION_REQUEST_CTX.set(v)`: returns (the token, the new state); the
token records the previous value so that `reset` can restore it. -/
def ctxVarSet (st : CtxState) (v : PyVal) : PyVal × CtxState := (st, v)

/-- `_PREDICTION_REQUEST_CTX.reset(token)`: restores the value recorded by the
token, whatever the variable currently holds. -/
def ctxVarReset (tok : PyVal) (_st : CtxState) : CtxState := tok

/-- `get_prediction_context()`: `_PREDICTION_REQUEST_CTX.get()`. -/
def get_prediction_context (st : CtxState) : PyVal := st

/-- The outcome of running a Python block: a value, or an exception
unwinding out of it (an early `return` is a normal outcome). -/
inductive PyResult (α : Type) where
  | ok (a : α)
  | exn (e : PyError)
  deriving DecidableEq

/-- `set_prediction_context(context)` used as a `with` block around `body`
(the `@contextlib.contextmanager` generator): first the type check
`if context and not isinstance(context, Context): raise TypeError(...)`, then
`token = _PREDICTION_REQUEST_CTX.set(context)`, the body, and in a `finally:`
clause `_PREDICTION_REQUEST_CTX.reset(token)` — so the reset runs on every
exit path of the body, normal or exceptional. -/
def set_prediction_context {α : Type} (context : PyVal)
    (body : CtxState → PyResult α × CtxState) (st : CtxState) : PyResult α × CtxState :=
  if context.truthy && !context.isContext then
    (.exn ⟨"TypeError", "Expected context to be an instance of Context, but got: " ++ context.pyStr⟩,
      st)
  else
    let p := ctxVarSet st context
    let r := body p.2
    (r.1, ctxVarReset p.1 r.2)

/-! ## Many concurrent logical executions

For the isolation property, the variable's full state is one value per
logical execution (`contextvars` semantics: every thread/task has its own
copy), and each primitive operation — the `set` in `set_prediction_context`,
the `reset` in its `finally` clause — acts only on the component of the
execution that performs it. -/

/-- A logical execution (thread or task) identifier. -/
abbrev ExecId := Nat

/-- The state of `_PREDICTION_REQUEST_CTX` across all logical executions. -/
abbrev GlobalCtx := ExecId → PyVal

/-- One primitive mutation of the ContextVar: the `set` performed on entry of
`set_prediction_context`, or the `reset` performed in its `finally` clause. -/
inductive CtxAction where
  | setCtx (v : PyVal)
  | resetCtx (tok : PyVal)

/-- Perform one action on behalf of execution `e`: only `e`'s component of the
execution-local variable changes. -/
def applyAction (g : GlobalCtx) (e : ExecId) (a : CtxAction) : GlobalCtx :=
  fun e2 => if e2 = e then (match a with | .setCtx v => v | .resetCtx t => t) else g e2

/-- Run an interleaved schedule of actions, each tagged with the execution
that performs it. -/
def runActions (g : GlobalCtx) : List (ExecId × CtxAction) → GlobalCtx
  | [] => g
  | (e, a) :: rest => runActions (applyAction g e a) rest

/-! ## JSON / Python-dict values for `mlflow/entities/trace.py`

The dict layer that `to_dict`/`from_dict` traffic in holds the Python values
JSON can denote: `None` is `Json.null`, and a JSON document and the Python
object `json.loads` yields for it are identified. -/

inductive Json where
  | null
  | bool (b : Bool)
  | num (n : Int)
  | str (s : String)
  | arr (elems : List Json)
  | obj (entries : List (String × Json))

/-- `trace_dict.get(k)`: the value under key `k`, as a Python optional — a
missing key and a key holding `None` (JSON null) both yield Python `None`,
which is how `Trace.from_dict` tests the result (`if info is None`). -/
def pyDictGet (d : List (String × Json)) (k : String) : Option Json :=
  match d.lookup k with
  | Option.some v => match v with | .null => Option.none | _ => Option.some v
  | Option.none => Option.none

/-- Python's `repr` of `list(trace_dict.keys())`, used in the
`Trace.from_dict` error message. -/
def pyKeysRepr (d : List (String × Json)) : String :=
  "[" ++ String.intercalate ", " (d.map fun p => "'" ++ p.1 ++ "'") ++ "]"

/-- The error code attached to every `MlflowException` raised in `trace.py`. -/
def INVALID_PARAMETER_VALUE : String := "INVALID_PARAMETER_VALUE"

/-- An `MlflowException`: its message and its error code. -/
structure MlflowException where
  message : String
  error_code : String
  deriving DecidableEq

/-! ## Entities referenced by `trace.py`

`Span`, `Assessment`, `TraceData` and `TraceInfo` live in sibling modules
that are not part of this repository slice; they are modelled from the spec
(sections 3 and 6). -/

/-- Modelled from the spec: a `Span` is an immutable record of one execution
unit — identity (`span_id`), `name`, `span_type` (an enumerated string), and
timing. -/
structure Span where
  span_id : String
  name : String
  span_type : String
  start_time : Int
  end_time : Int
  deriving DecidableEq

/-- Modelled from the spec: the variant tag of an assessment — a tagged union
over expectation and feedback (`isinstance(a, Expectation)` /
`isinstance(a, Feedback)` in the source match on this tag). -/
inductive AssessmentKind where
  | expectation
  | feedback
  deriving DecidableEq

/-- Modelled from the spec: an `Assessment` carries `name`, an optional
`span_id` (a nullable reference), tri-state `valid` (true / false / unset)
and its variant tag. -/
structure Assessment where
  name : String
  span_id : Option String
  valid : Option Bool
  kind : AssessmentKind
  deriving DecidableEq

/-- Modelled from the spec: `TraceData` is the `request` and `response`
payloads (serialized text) plus the ordered sequence of spans. -/
structure TraceData where
  request : String
  response : String
  spans : List Span
  deriving DecidableEq

/-- Modelled from the spec: `TraceInfo` is the trace-level metadata —
identity, state, timing, string-to-string metadata and tag mappings, and the
ordered assessment list. -/
structure TraceInfo where
  trace_id : String
  client_request_id : Option String
  state : String
  request_time : Int
  execution_duration : Int
  trace_metadata : List (String × String)
  tags : List (String × String)
  assessments : List Assessment
  deriving DecidableEq

/-- A `Trace`: exactly one `TraceInfo` and one `TraceData`
(`mlflow/entities/trace.py`, the dataclass fields). -/
structure Trace where
  info : TraceInfo
  data : TraceData
  deriving DecidableEq

/-! ### Entity serialization, modelled from the spec

Spec section 6: the serialized trace document is
`{"info": <TraceInfo-dict>, "data": <TraceData-dict>}`; the `TraceData` dict
exposes `request`, `response` (strings) and `spans` (array of span dicts in
emission order); the `TraceInfo` dict exposes its section-3 fields plus an
`assessments` array, each assessment dict carrying its variant tag. -/

/-- An optional string as the Python/JSON value it serializes to. -/
def optStrJson : Option String → Json
  | Option.none => .null
  | Option.some s => .str s

/-- A tri-state boolean as the Python/JSON value it serializes to. -/
def optBoolJson : Option Bool → Json
  | Option.none => .null
  | Option.some b => .bool b

/-- A string-to-string mapping as a JSON object. -/
def strMapJson (m : List (String × String)) : Json :=
  .obj (m.map fun p => (p.1, Json.str p.2))

/-- The tag the spec's tagged union serializes the variant as. -/
def AssessmentKind.tag : AssessmentKind → String
  | .expectation => "expectation"
  | .feedback => "feedback"

/-- Modelled from the spec: `Span.to_dict`. -/
def Span.to_dict (s : Span) : Json :=
  .obj [("span_id", .str s.span_id), ("name", .str s.name), ("span_type", .str s.span_type),
    ("start_time", .num s.start_time), ("end_time", .num s.end_time)]

/-- Modelled from the spec: the dict form of an `Assessment`, carrying its
variant tag (the source reaches it as `assessment.to_dictionary()`). -/
def Assessment.to_dictionary (a : Assessment) : Json :=
  .obj [("name", .str a.name), ("span_id", optStrJson a.span_id),
    ("valid", optBoolJson a.valid), ("type", .str a.kind.tag)]

/-- Modelled from the spec: `TraceData.to_dict`. -/
def TraceData.to_dict (d : TraceData) : Json :=
  .obj [("request", .str d.request), ("response", .str d.response),
    ("spans", .arr (d.spans.map Span.to_dict))]

/-- Modelled from the spec: `TraceInfo.to_dict`. -/
def TraceInfo.to_dict (i : TraceInfo) : Json :=
  .obj [("trace_id", .str i.trace_id), ("client_request_id", optStrJson i.client_request_id),
    ("state", .str i.state), ("request_time", .num i.request_time),
    ("execution_duration", .num i.execution_duration),
    ("trace_metadata", strMapJson i.trace_metadata), ("tags", strMapJson i.tags),
    ("assessments", .arr (i.assessments.map Assessment.to_dictionary))]

/-! ### Entity parsing, modelled from the spec

Each entity's `from_dict` reads its own dict form back; a value of the wrong
shape raises (as a Python `TypeError`/`KeyError` would), modelled as an
`Except PyError`. -/

/-- Read a key out of a JSON object (Python `d[k]`). -/
def Json.getKey (j : Json) (k : String) : Except PyError Json :=
  match j with
  | .obj es =>
      match es.lookup k with
      | Option.some v => .ok v
      | Option.none => .error ⟨"KeyError", k⟩
  | _ => .error ⟨"TypeError", "expected a dict"⟩

/-- Expect a string value. -/
def Json.asStr : Json → Except PyError String
  | .str s => .ok s
  | _ => .error ⟨"TypeError", "expected a string"⟩

/-- Expect an integer value. -/
def Json.asNum : Json → Except PyError Int
  | .num n => .ok n
  | _ => .error ⟨"TypeError", "expected a number"⟩

/-- Expect a nullable string value. -/
def Json.asOptStr : Json → Except PyError (Option String)
  | .null => .ok Option.none
  | .str s => .ok (Option.some s)
  | _ => .error ⟨"TypeError", "expected a string or null"⟩

/-- Expect a nullable boolean value. -/
def Json.asOptBool : Json → Except PyError (Option Bool)
  | .null => .ok Option.none
  | .bool b => .ok (Option.some b)
  | _ => .error ⟨"TypeError", "expected a boolean or null"⟩

/-- Expect an array value. -/
def Json.asArr : Json → Except PyError (List Json)
  | .arr l => .ok l
  | _ => .error ⟨"TypeError", "expected a list"⟩

/-- Parse every element of a list, failing on the first error. -/
def exceptMapM {ε α β : Type} (f : α → Except ε β) : List α → Except ε (List β)
  | [] => .ok []
  | a :: as => do
      let b ← f a
      let bs ← exceptMapM f as
      pure (b :: bs)

/-- Parse a JSON object of strings back into a string-to-string mapping. -/
def Json.asStrMap (j : Json) : Except PyError (List (String × String)) :=
  match j with
  | .obj es => exceptMapM (fun p => do pure (p.1, ← Json.asStr p.2)) es
  | _ => .error ⟨"TypeError", "expected a dict"⟩

/-- Modelled from the spec: `Span.from_dict`. -/
def Span.from_dict (j : Json) : Except PyError Span := do
  let sid ← (← j.getKey "span_id").asStr
  let nm ← (← j.getKey "name").asStr
  let ty ← (← j.getKey "span_type").asStr
  let st ← (← j.getKey "start_time").asNum
  let et ← (← j.getKey "end_time").asNum
  pure ⟨sid, nm, ty, st, et⟩

/-- Parse a variant tag. -/
def AssessmentKind.ofTag (s : String) : Except PyError AssessmentKind :=
  if s = "expectation" then .ok .expectation
  else if s = "feedback" then .ok .feedback
  else .error ⟨"ValueError", "unknown assessment type"⟩

/-- Modelled from the spec: the `Assessment` parser inverse to
`Assessment.to_dictionary`. -/
def Assessment.from_dictionary (j : Json) : Except PyError Assessment := do
  let nm ← (← j.getKey "name").asStr
  let sid ← (← j.getKey "span_id").asOptStr
  let vd ← (← j.getKey "valid").asOptBool
  let k ← AssessmentKind.ofTag (← (← j.getKey "type").asStr)
  pure ⟨nm, sid, vd, k⟩

/-- Modelled from the spec: `TraceData.from_dict`. -/
def TraceData.from_dict (j : Json) : Except PyError TraceData := do
  let req ← (← j.getKey "request").asStr
  let resp ← (← j.getKey "response").asStr
  let spans ← exceptMapM Span.from_dict (← (← j.getKey "spans").asArr)
  pure ⟨req, resp, spans⟩

/-- Modelled from the spec: `TraceInfo.from_dict`. -/
def TraceInfo.from_dict (j : Json) : Except PyError TraceInfo := do
  let tid ← (← j.getKey "trace_id").asStr
  let crid ← (← j.getKey "client_request_id").asOptStr
  let st ← (← j.getKey "state").asStr
  let rt ← (← j.getKey "request_time").asNum
  let ed ← (← j.getKey "execution_duration").asNum
  let md ← (← j.getKey "trace_metadata").asStrMap
  let tg ← (← j.getKey "tags").asStrMap
  let asmts ← exceptMapM Assessment.from_dictionary (← (← j.getKey "assessments").asArr)
  pure ⟨tid, crid, st, rt, ed, md, tg, asmts⟩

/-! ### `Trace.to_dict` / `from_dict` / `to_json` / `from_json`
(`mlflow/entities/trace.py`) -/

/-- An error propagating out of `Trace.from_dict`/`from_json`: the
`MlflowException` the function raises itself, or a Python error from the
delegated entity parsers. -/
inductive TraceError where
  | mlflow (e : MlflowException)
  | py (e : PyError)
  deriving DecidableEq

/-- `Trace.to_dict`: `{"info": self.info.to_dict(), "data": self.data.to_dict()}`. -/
def Trace.to_dict (t : Trace) : List (String × Json) :=
  [("info", t.info.to_dict), ("data", t.data.to_dict)]

/-- A serialized JSON text, abstracted by the value it denotes. Modelled from
the spec: `json.dumps`/`json.loads` come from Python's standard `json`
library (external to this repository); a dumped document loads back to the
value it was dumped from, and malformed text fails to load with a decode
error. -/
inductive JsonText where
  | wellFormed (j : Json)
  | malformed (raw : String) (err : String)

/-- Modelled from the spec: `json.dumps` (Python standard library). -/
def json_dumps (j : Json) : JsonText := .wellFormed j

/-- Modelled from the spec: `json.loads` (Python standard library). -/
def json_loads : JsonText → Except String Json
  | .wellFormed j => .ok j
  | .malformed _ e => .error e

/-- `Trace.to_json`: `json.dumps(self.to_dict())`. -/
def Trace.to_json (t : Trace) : JsonText := json_dumps (.obj t.to_dict)

/-- `Trace.from_dict`: read `info` and `data` with `.get`, raise an
`MlflowException` with code `INVALID_PARAMETER_VALUE` listing the received
keys when either is `None`, otherwise delegate to `TraceInfo.from_dict` and
`TraceData.from_dict`. -/
def Trace.from_dict (trace_dict : List (String × Json)) : Except TraceError Trace :=
  match pyDictGet trace_dict "info", pyDictGet trace_dict "data" with
  | Option.some i, Option.some d => do
      let ti ← (TraceInfo.from_dict i).mapError TraceError.py
      let td ← (TraceData.from_dict d).mapError TraceError.py
      pure ⟨ti, td⟩
  | _, _ =>
      .error (.mlflow ⟨"Unable to parse Trace from dictionary. Expected keys: 'info' and 'data'. "
        ++ "Received keys: " ++ pyKeysRepr trace_dict, INVALID_PARAMETER_VALUE⟩)

/-- `Trace.from_json`: `json.loads`, wrapping a decode error in an
`MlflowException` with code `INVALID_PARAMETER_VALUE`, then `from_dict`
(loading a non-object document makes `trace_dict.get` fail as a Python
attribute error). -/
def Trace.from_json (trace_json : JsonText) : Except TraceError Trace :=
  match trace_json with
  | .malformed raw e =>
      .error (.mlflow ⟨"Unable to parse trace JSON: " ++ raw ++ ". Error: " ++ e,
        INVALID_PARAMETER_VALUE⟩)
  | .wellFormed j =>
      match j with
      | .obj d => Trace.from_dict d
      | _ => .error (.py ⟨"AttributeError", "object has no attribute 'get'"⟩)

/-! ## `Trace.search_spans` (`mlflow/entities/trace.py`)

The `name` argument may be a string, a compiled `re.Pattern`, `None`, or —
with Python's dynamic typing — a value of any other type; likewise
`span_type` may be a string, `None`, or anything else. The `invalid`
constructors stand for "a value of any other type" and carry the rendering
of `type(x)` that the error message interpolates. -/

/-- Modelled from the spec: a compiled `re.Pattern` (Python standard `re`
library, external to this repository), abstracted by the set of character
sequences it matches exactly; `pattern.search(s)` scans `s` and succeeds
when the pattern matches at some position — i.e. on some substring — which
is the spec's "pattern matching succeeds if the pattern matches anywhere in
the span name (not anchored)". -/
structure RePattern where
  matchesSub : List Char → Bool

/-- `pattern.search(s) is not None`: scan every start position and every
match length. -/
def RePattern.search (p : RePattern) (s : String) : Bool :=
  (List.range (s.data.length + 1)).any fun i =>
    (List.range (s.data.length + 1 - i)).any fun len =>
      p.matchesSub ((s.data.drop i).take len)

/-- The `name` argument of `search_spans`. -/
inductive NameArg where
  | none
  | str (s : String)
  | pattern (p : RePattern)
  | invalid (typeName : String)

/-- The `span_type` argument of `search_spans`. -/
inductive TypeArg where
  | none
  | str (s : String)
  | invalid (typeName : String)

/-- `_match_name(span)`: `isinstance(name, str)` first, then
`isinstance(name, re.Pattern)`, then `name is None`, else raise an
`MlflowException` naming the offending type. -/
def _match_name (name : NameArg) (span : Span) : Except MlflowException Bool :=
  match name with
  | .str x => .ok (span.name == x)
  | .pattern p => .ok (p.search span.name)
  | .none => .ok true
  | .invalid ty =>
      .error ⟨"Invalid type for 'name'. Expected str or re.Pattern. Got: " ++ ty,
        INVALID_PARAMETER_VALUE⟩

/-- `_match_type(span)`: `isinstance(span_type, str)` first, then
`span_type is None`, else raise an `MlflowException` naming the offending
type. -/
def _match_type (span_type : TypeArg) (span : Span) : Except MlflowException Bool :=
  match span_type with
  | .str x => .ok (span.span_type == x)
  | .none => .ok true
  | .invalid ty =>
      .error ⟨"Invalid type for 'span_type'. Expected str or mlflow.entities.SpanType. Got: "
        ++ ty, INVALID_PARAMETER_VALUE⟩

/-- `_match_id(span)`: `True` when `span_id` is `None`, else exact equality. -/
def _match_id (span_id : Option String) (span : Span) : Bool :=
  match span_id with
  | Option.none => true
  | Option.some x => span.span_id == x

/-- The list comprehension of `search_spans`:
`[span for span in spans if _match_name(span) and _match_type(span) and _match_id(span)]`.
Spans are visited front to back; for each span the three predicates are
evaluated left to right with Python `and` short-circuiting, and the first
exception one of them raises propagates. -/
def searchSpansGo (name : NameArg) (span_type : TypeArg) (span_id : Option String) :
    List Span → Except MlflowException (List Span)
  | [] => .ok []
  | s :: rest => do
      let keep ← do
        let bn ← _match_name name s
        if bn then do
          let bt ← _match_type span_type s
          if bt then pure (_match_id span_id s) else pure false
        else
          pure false
      let tail ← searchSpansGo name span_type span_id rest
      pure (if keep then s :: tail else tail)

/-- `Trace.search_spans(span_type, name, span_id)`. -/
def Trace.search_spans (t : Trace) (span_type : TypeArg) (name : NameArg)
    (span_id : Option String) : Except MlflowException (List Span) :=
  searchSpansGo name span_type span_id t.data.spans

/-! ## `Trace.search_assessments` (`mlflow/entities/trace.py`) -/

/-- `validate_type(assessment)`: with the `Literal` annotation the `type`
argument is `"expectation"`, `"feedback"` or `None`; the isinstance checks on
the Expectation/Feedback subclasses match the assessment's variant tag. -/
def validate_type (type : Option AssessmentKind) (assessment : Assessment) : Bool :=
  match type with
  | Option.some .expectation => assessment.kind == .expectation
  | Option.some .feedback => assessment.kind == .feedback
  | Option.none => true

/-- `Trace.search_assessments(name, span_id=, all=, type=)`: the list
comprehension over `self.info.assessments` with the name filter, the span_id
filter, the validity gate `all or assessment.valid in (True, None)` and the
type filter. -/
def Trace.search_assessments (t : Trace) (name : Option String) (span_id : Option String)
    (all : Bool) (type : Option AssessmentKind) : List Assessment :=
  t.info.assessments.filter fun assessment =>
    (match name with | Option.none => true | Option.some n => assessment.name == n)
      && (match span_id with | Option.none => true | Option.some s => assessment.span_id == Option.some s)
      && (all || (assessment.valid == Option.some true || assessment.valid == Option.none))
      && (match type with | Option.none => true | Option.some _ => validate_type type assessment)

/-! ## Spec-side predicates and auxiliary definitions for the theorems -/

/-- The name predicate of a valid (non-raising) `name` argument, as a pure
boolean: exact equality for a string, a scan for a pattern, vacuous for
`None`. -/
def nameMatches : NameArg → Span → Bool
  | .str x, s => s.name == x
  | .pattern p, s => p.search s.name
  | _, _ => true

/-- The span-type predicate of a valid (non-raising) `span_type` argument. -/
def typeMatches : TypeArg → Span → Bool
  | .str x, s => s.span_type == x
  | _, _ => true

/-- The spec's wording of the name filter: a string name matches by exact
equality; a pattern name matches when the pattern matches anywhere in the
span name, i.e. on some substring (not anchored); an absent name matches
every span. -/
def NameSpec (name : NameArg) (s : Span) : Prop :=
  match name with
  | .none => True
  | .str x => s.name = x
  | .pattern p => ∃ pre mid post, s.name.data = pre ++ mid ++ post ∧ p.matchesSub mid = true
  | .invalid _ => False

/-- The spec's wording of the span-type filter: exact equality, or vacuous
when absent. -/
def TypeSpec (span_type : TypeArg) (s : Span) : Prop :=
  match span_type with
  | .none => True
  | .str x => s.span_type = x
  | .invalid _ => False

/-- The spec's wording of the span-id filter: exact equality, or vacuous when
absent. -/
def IdSpec (span_id : Option String) (s : Span) : Prop :=
  match span_id with
  | Option.none => True
  | Option.some x => s.span_id = x

/-- The spec's wording of the assessment filter for `search_assessments`:
name equality, span-id equality, the validity gate (skipped when `all`;
otherwise `valid` must be true or unset, unset treated as valid), and the
variant filter. -/
def AssessmentSpec (name : Option String) (span_id : Option String) (all : Bool)
    (type : Option AssessmentKind) (a : Assessment) : Prop :=
  (∀ n, name = Option.some n → a.name = n) ∧
    (∀ sid, span_id = Option.some sid → a.span_id = Option.some sid) ∧
    (all = true ∨ a.valid = Option.some true ∨ a.valid = Option.none) ∧
    (∀ k, type = Option.some k → a.kind = k)

/-- The effect of the `setattr` calls `Context.update` performs for a list of
recognized keyword arguments, in order. -/
def applySetattrs (c : PyVal) (kvs : List (String × PyVal)) : PyVal :=
  kvs.foldl (fun a p => a.setattr p.1 p.2) c

/-! ## Helper lemmas -/

/-- `setattr` never changes whether a value is a `Context` instance. -/
theorem setattr_isContext (c : PyVal) (k : String) (v : PyVal) :
    (c.setattr k v).isContext = c.isContext := by
  cases c <;> first
    | rfl
    | (simp only [PyVal.setattr, PyVal.isContext]; split_ifs <;> rfl)

/-- Reading the variable of execution `e` is insensitive to the other
executions' components of the initial state. -/
theorem runActions_congr (e : ExecId) (l : List (ExecId × CtxAction)) :
    ∀ g1 g2 : GlobalCtx, g1 e = g2 e → runActions g1 l e = runActions g2 l e := by
  induction l with
  | nil => intro g1 g2 h; exact h
  | cons p rest ih =>
      intro g1 g2 h
      obtain ⟨e1, a⟩ := p
      apply ih
      by_cases he : e = e1
      · simp only [applyAction, if_pos he]
      · simp only [applyAction, if_neg he]
        exact h

/-! ## Claim C9 -/

/-- C9: two concurrently executing logical executions never observe each
other's bound context. The ContextVar's state is execution-local, so under
every interleaved schedule of `set`/`reset` actions, what one execution reads
is exactly what its own subsequence of actions produces — the other
executions' scope entries and exits never affect it. Quantifying over all
schedules covers every interleaving point (every point is the state after
some schedule prefix). -/
theorem context_var_execution_isolation (g : GlobalCtx) (tr : List (ExecId × CtxAction))
    (e : ExecId) :
    get_prediction_context (runActions g tr e) =
      get_prediction_context (runActions g (tr.filter fun p => p.1 == e) e) := by
  simp only [get_prediction_context]
  induction tr generalizing g with
  | nil => rfl
  | cons p rest ih =>
      obtain ⟨e1, a⟩ := p
      by_cases he : e1 = e
      · rw [List.filter_cons, if_pos (by simp [he])]
        simp only [runActions]
        exact ih (applyAction g e1 a)
      · rw [List.filter_cons, if_neg (by simp [he])]
        simp only [runActions]
        have step : runActions (applyAction g e1 a) (rest.filter fun p => p.1 == e) e =
            runActions g (rest.filter fun p => p.1 == e) e :=
          runActions_congr e _ _ _ (by simp only [applyAction, if_neg (Ne.symm he)])
        rw [ih (applyAction g e1 a), step]

/-! ## Claim C10 -/

/-- C10: constructing a `Context` with unrecognized keyword arguments
succeeds and silently ignores them — the result is the same as without them,
it is an ordinary `Context` instance built from the five recognized
parameters, and no attribute is created for the extras: attribute existence
on the result is exactly that of an instance built without them. -/
theorem context_init_ignores_unknown_kwargs (r e d m en : PyVal)
    (kwargs : List (String × PyVal)) :
    Context.init r e d m en kwargs = Context.init r e d m en [] ∧
      Context.init r e d m en kwargs = PyVal.context r e d m en ∧
      ∀ k : String, PyVal.hasattr (Context.init r e d m en kwargs) k =
        PyVal.hasattr (Context.init r e d m en []) k :=
  ⟨rfl, rfl, fun _ => rfl⟩

/-! ## Claim C3 (corrected) -/

/-- C3 counterexample: the integer `0` is neither `None` nor a `Context`
instance, yet entering a scope with it raises nothing — `if context` is
false for a falsy value, so the type check is skipped, `0` is bound (the body
observes it), and the body's value is returned normally. -/
theorem set_prediction_context_falsy_counterexample :
    set_prediction_context (PyVal.int 0) (fun s => (PyResult.ok s, s)) PyVal.none =
      (PyResult.ok (PyVal.int 0), PyVal.none) := by
  rfl

/-- C3 amended: for every truthy value that is not a `Context` instance,
entering a scope with it raises a `TypeError` identifying the value, before
any binding takes effect, and the current binding is returned unchanged.
(A falsy non-`Context` value such as `0`, `False` or `""` slips past the
`if context` truthiness test and is bound without an error.) -/
theorem set_prediction_context_truthy_type_error {α : Type} (v : PyVal)
    (body : CtxState → PyResult α × CtxState) (st : CtxState)
    (htruthy : v.truthy = true) (hnotctx : v.isContext = false) :
    set_prediction_context v body st =
      (PyResult.exn ⟨"TypeError",
        "Expected context to be an instance of Context, but got: " ++ v.pyStr⟩, st) := by
  simp [set_prediction_context, htruthy, hnotctx]

/-- C3 witness: the truthy non-`Context` string raises the `TypeError` and
leaves the binding untouched. -/
theorem set_prediction_context_truthy_type_error_witness :
    set_prediction_context (PyVal.str "x") (fun (s : CtxState) => (PyResult.ok s, s)) PyVal.none =
      (PyResult.exn ⟨"TypeError",
        "Expected context to be an instance of Context, but got: " ++ (PyVal.str "x").pyStr⟩,
        PyVal.none) :=
  set_prediction_context_truthy_type_error (PyVal.str "x") _ PyVal.none (by decide) rfl

/-! ## Claim C4 -/

/-- C4: scope discipline of `set_prediction_context`. For a valid context
argument (absent or a `Context` instance): the scoped body runs with the new
binding as the current context (so `currentContext()` inside the innermost
scope returns the context that scope bound), the scope's result is the body's
outcome — normal or an exception unwinding through it — and on every such
exit path the binding that held immediately before entry is restored exactly.
The quantification over bodies covers arbitrary nesting; the last conjunct
spells out the two-deep nested case: inside scope B (entered inside scope A)
the current context is B's, after B exits it is A's again, and after A exits
the original binding is back. -/
theorem set_prediction_context_scope {α : Type} (c c2 : PyVal)
    (body : CtxState → PyResult α × CtxState) (st : CtxState)
    (hc : c = PyVal.none ∨ c.isContext = true)
    (hc2 : c2 = PyVal.none ∨ c2.isContext = true) :
    set_prediction_context c body st = ((body (get_prediction_context c)).1, st) ∧
      get_prediction_context c = c ∧
      set_prediction_context c
          (fun s1 =>
            let p := set_prediction_context c2
              (fun s2 => (PyResult.ok (get_prediction_context s2), s2)) s1
            (PyResult.ok (p.1, get_prediction_context p.2), p.2)) st =
        (PyResult.ok (PyResult.ok c2, c), st) := by
  have hcheck : ∀ x : PyVal, x = PyVal.none ∨ x.isContext = true →
      (x.truthy && !x.isContext) = false := by
    rintro x (rfl | hx)
    · rfl
    · simp [hx]
  refine ⟨?_, rfl, ?_⟩
  · simp [set_prediction_context, hcheck c hc, ctxVarSet, ctxVarReset, get_prediction_context]
  · simp [set_prediction_context, hcheck c hc, hcheck c2 hc2, ctxVarSet, ctxVarReset,
      get_prediction_context]

/-- C4 witness: a concrete two-deep nesting with `Context` instances, applied
to the scope theorem. -/
theorem set_prediction_context_scope_witness :
    set_prediction_context
        (PyVal.context (PyVal.str "r1") (PyVal.bool false) PyVal.none PyVal.none PyVal.none)
        (fun (s : CtxState) => (PyResult.ok s, s)) PyVal.none =
      ((((fun (s : CtxState) => (PyResult.ok s, s))
          (get_prediction_context
            (PyVal.context (PyVal.str "r1") (PyVal.bool false) PyVal.none PyVal.none PyVal.none))).1),
        PyVal.none) ∧
      get_prediction_context
          (PyVal.context (PyVal.str "r1") (PyVal.bool false) PyVal.none PyVal.none PyVal.none) =
        PyVal.context (PyVal.str "r1") (PyVal.bool false) PyVal.none PyVal.none PyVal.none ∧
      set_prediction_context
          (PyVal.context (PyVal.str "r1") (PyVal.bool false) PyVal.none PyVal.none PyVal.none)
          (fun s1 =>
            let p := set_prediction_context
              (PyVal.context (PyVal.str "r2") (PyVal.bool false) PyVal.none PyVal.none PyVal.none)
              (fun s2 => (PyResult.ok (get_prediction_context s2), s2)) s1
            (PyResult.ok (p.1, get_prediction_context p.2), p.2)) PyVal.none =
        (PyResult.ok
          (PyResult.ok
            (PyVal.context (PyVal.str "r2") (PyVal.bool false) PyVal.none PyVal.none PyVal.none),
            PyVal.context (PyVal.str "r1") (PyVal.bool false) PyVal.none PyVal.none PyVal.none),
          PyVal.none) :=
  set_prediction_context_scope
    (PyVal.context (PyVal.str "r1") (PyVal.bool false) PyVal.none PyVal.none PyVal.none)
    (PyVal.context (PyVal.str "r2") (PyVal.bool false) PyVal.none PyVal.none PyVal.none)
    (fun (s : CtxState) => (PyResult.ok s, s)) PyVal.none (Or.inr rfl) (Or.inr rfl)

/-! ## Claim C5 (corrected) -/

/-- C5 counterexample: `context.update(model_id="m1", bogus="x")` raises the
`AttributeError` naming `bogus`, but does NOT leave the context unchanged —
the recognized field `model_id`, which precedes the unknown key, has already
been assigned when the error is raised. -/
theorem context_update_counterexample :
    Context.update
        (PyVal.context PyVal.none (PyVal.bool false) PyVal.none PyVal.none PyVal.none)
        [("model_id", PyVal.str "m1"), ("bogus", PyVal.str "x")] =
      (Option.some ⟨"AttributeError", "Context has no attribute named 'bogus'"⟩,
        PyVal.context PyVal.none (PyVal.bool false) PyVal.none (PyVal.str "m1") PyVal.none) := by
  rfl

/-- C5 amended: an update whose keyword arguments contain a name that is not
an attribute of the context — neither one of the five data fields nor a class
attribute, i.e. the `update` method or an inherited dunder name — fails with
an `AttributeError` naming the first such name; the recognized fields listed
before it HAVE already been assigned when the error is raised (the keyword
arguments are applied in order, in place), and the arguments from the
unrecognized one on are not applied. A call all of whose keyword names are
existing attributes — data fields or the `update` method — raises nothing: a
non-field attribute name such as `update` is silently accepted (its
assignment shadows the class attribute), not rejected. -/
theorem context_update_unknown_key (c : PyVal) (pre : List (String × PyVal)) (k : String)
    (v : PyVal) (post kws : List (String × PyVal)) (hc : c.isContext = true)
    (hpre : ∀ p ∈ pre, p.1 ∈ contextFields) (hk : contextAttrNames k = false)
    (hall : ∀ p ∈ kws, p.1 ∈ contextFields ∨ p.1 = "update") :
    Context.update c (pre ++ (k, v) :: post) =
        (Option.some ⟨"AttributeError", "Context has no attribute named '" ++ k ++ "'"⟩,
          applySetattrs c pre) ∧
      (Context.update c kws).1 = Option.none := by
  constructor
  · induction pre generalizing c with
    | nil =>
        have hattr : c.hasattr k = false := by
          simp [PyVal.hasattr, hc, hk]
        simp [Context.update, hattr, applySetattrs]
    | cons p rest ih =>
        have hmem : contextFields.contains p.1 = true := by
          simpa using hpre p (List.mem_cons_self p rest)
        have hattr : c.hasattr p.1 = true := by
          simp only [PyVal.hasattr, contextAttrNames, hc, Bool.true_and]
          rw [hmem]
          simp
        have hc2 : (c.setattr p.1 p.2).isContext = true := by
          rw [setattr_isContext]; exact hc
        have hrest : ∀ q ∈ rest, q.1 ∈ contextFields := fun q hq =>
          hpre q (List.mem_cons_of_mem p hq)
        simpa [Context.update, hattr, applySetattrs] using
          ih (c.setattr p.1 p.2) hc2 hrest
  · induction kws generalizing c with
    | nil => rfl
    | cons p rest ih =>
        have hattr : c.hasattr p.1 = true := by
          simp only [PyVal.hasattr, contextAttrNames, hc, Bool.true_and]
          rcases hall p (List.mem_cons_self p rest) with h | h
          · rw [show contextFields.contains p.1 = true by simpa using h]
            simp
          · simp [h]
        have hc2 : (c.setattr p.1 p.2).isContext = true := by
          rw [setattr_isContext]; exact hc
        have hrest : ∀ q ∈ rest, q.1 ∈ contextFields ∨ q.1 = "update" := fun q hq =>
          hall q (List.mem_cons_of_mem p hq)
        simpa [Context.update, hattr] using ih (c.setattr p.1 p.2) hc2 hrest

/-- C5 witness: `update(model_id="m1", bogus="x")` on a fresh context raises
the `AttributeError` for `bogus` with `model_id` already assigned, while
`update(update="x", model_id="m2")` — whose names are all attributes —
raises nothing. -/
theorem context_update_unknown_key_witness :
    Context.update
        (PyVal.context PyVal.none (PyVal.bool false) PyVal.none PyVal.none PyVal.none)
        ([("model_id", PyVal.str "m1")] ++ ("bogus", PyVal.str "x") :: []) =
        (Option.some ⟨"AttributeError", "Context has no attribute named 'bogus'"⟩,
          applySetattrs
            (PyVal.context PyVal.none (PyVal.bool false) PyVal.none PyVal.none PyVal.none)
            [("model_id", PyVal.str "m1")]) ∧
      (Context.update
          (PyVal.context PyVal.none (PyVal.bool false) PyVal.none PyVal.none PyVal.none)
          [("update", PyVal.str "x"), ("model_id", PyVal.str "m2")]).1 = Option.none :=
  context_update_unknown_key
    (PyVal.context PyVal.none (PyVal.bool false) PyVal.none PyVal.none PyVal.none)
    [("model_id", PyVal.str "m1")] "bogus" (PyVal.str "x") []
    [("update", PyVal.str "x"), ("model_id", PyVal.str "m2")] rfl
    (by intro p hp; simp at hp; simp [hp, contextFields])
    (by decide)
    (by intro p hp; simp at hp; rcases hp with h | h <;> simp [h, contextFields])

/-! ## Claim C6 -/

/-- C6: `search_assessments` returns exactly the assessments satisfying the
name, span-id and type filters that also pass the validity gate — with
`all=False` only those whose `valid` is true or unset (unset treated as
valid), excluding `valid=false`; with `all=True` the gate is skipped and
invalid assessments are returned too — and the result is a sublist of the
original assessment list, i.e. it keeps the original append order. -/
theorem search_assessments_spec (t : Trace) (name span_id : Option String) (all : Bool)
    (type : Option AssessmentKind) :
    (Trace.search_assessments t name span_id all type).Sublist t.info.assessments ∧
      ∀ a : Assessment,
        a ∈ Trace.search_assessments t name span_id all type ↔
          a ∈ t.info.assessments ∧ AssessmentSpec name span_id all type a := by
  constructor
  · exact List.filter_sublist _
  · intro a
    rw [Trace.search_assessments, List.mem_filter]
    refine and_congr_right fun _ => ?_
    rcases type with _ | k
    · rcases name with _ | n <;> rcases span_id with _ | sid <;>
        simp [AssessmentSpec, validate_type, Bool.or_eq_true, and_assoc]
    · cases k <;> rcases name with _ | n <;> rcases span_id with _ | sid <;>
        simp [AssessmentSpec, validate_type, Bool.or_eq_true, and_assoc]

/-! ## Lemmas about `search_spans` -/

/-- A `name` argument of a valid type never raises: it computes the pure
predicate `nameMatches`. -/
theorem _match_name_valid (na : NameArg) (s : Span) (hna : ∀ u, na ≠ NameArg.invalid u) :
    _match_name na s = .ok (nameMatches na s) := by
  cases na with
  | invalid u => exact absurd rfl (hna u)
  | _ => rfl

/-- A `span_type` argument of a valid type never raises: it computes the pure
predicate `typeMatches`. -/
theorem _match_type_valid (st : TypeArg) (s : Span) (hst : ∀ u, st ≠ TypeArg.invalid u) :
    _match_type st s = .ok (typeMatches st s) := by
  cases st with
  | invalid u => exact absurd rfl (hst u)
  | _ => rfl

/-- With valid argument types the comprehension never raises: it filters the
span list by the conjunction of the three predicates, in order. -/
theorem searchSpansGo_valid (na : NameArg) (st : TypeArg) (sid : Option String)
    (hna : ∀ u, na ≠ NameArg.invalid u) (hst : ∀ u, st ≠ TypeArg.invalid u)
    (l : List Span) :
    searchSpansGo na st sid l =
      .ok (l.filter fun s => nameMatches na s && typeMatches st s && _match_id sid s) := by
  induction l with
  | nil => rfl
  | cons s rest ih =>
      cases hn : nameMatches na s <;> cases ht : typeMatches st s <;>
        simp [searchSpansGo, _match_name_valid na s hna, _match_type_valid st s hst, ih,
          Bind.bind, Except.bind, List.filter_cons, hn, ht, pure, Except.pure]

/-- The scan `pattern.search(s)` succeeds exactly when the pattern matches
some substring of `s` — anywhere, not anchored. -/
theorem RePattern.search_iff (p : RePattern) (s : String) :
    p.search s = true ↔
      ∃ pre mid post, s.data = pre ++ mid ++ post ∧ p.matchesSub mid = true := by
  unfold RePattern.search
  simp only [List.any_eq_true, List.mem_range]
  constructor
  · rintro ⟨i, _, len, _, hp⟩
    refine ⟨s.data.take i, (s.data.drop i).take len, (s.data.drop i).drop len, ?_, hp⟩
    rw [List.append_assoc, List.take_append_drop, List.take_append_drop]
  · rintro ⟨pre, mid, post, hsplit, hp⟩
    have hlen : s.data.length = pre.length + mid.length + post.length := by
      rw [hsplit]; simp; omega
    refine ⟨pre.length, by omega, mid.length, by omega, ?_⟩
    rw [hsplit, List.append_assoc, List.drop_left, List.take_left]
    exact hp

/-- When `span_type` has an invalid type and some span passes the name
filter, the comprehension raises at the first such span. -/
theorem searchSpansGo_type_invalid (na : NameArg) (tyName : String) (sid : Option String)
    (hna : ∀ u, na ≠ NameArg.invalid u) :
    ∀ l : List Span, (∃ s ∈ l, nameMatches na s = true) →
      searchSpansGo na (TypeArg.invalid tyName) sid l =
        .error ⟨"Invalid type for 'span_type'. Expected str or mlflow.entities.SpanType. Got: "
          ++ tyName, INVALID_PARAMETER_VALUE⟩ := by
  intro l
  induction l with
  | nil => rintro ⟨s, hs, _⟩; simp at hs
  | cons s rest ih =>
      rintro ⟨s0, hs0, hm⟩
      cases hn : nameMatches na s
      · have hrest : ∃ x ∈ rest, nameMatches na x = true := by
          rcases List.mem_cons.mp hs0 with rfl | hmem
          · rw [hn] at hm; cases hm
          · exact ⟨s0, hmem, hm⟩
        simp [searchSpansGo, _match_name_valid na s hna, hn, Bind.bind, Except.bind, pure,
          Except.pure, ih hrest]
      · simp [searchSpansGo, _match_name_valid na s hna, hn, _match_type, Bind.bind, Except.bind]

/-! ## Claim C7 -/

/-- C7: with arguments of the documented types, `search_spans` never raises:
it returns exactly the spans satisfying the conjunction of all provided
predicates, as a filter of the trace's span list (hence in original order and
empty — not an error — when nothing matches); and the per-span predicate
agrees with the spec's reading — a string name matches by exact equality, a
pattern name matches when the pattern matches anywhere in the span name (not
anchored), span type and span id match by exact equality, and an absent
predicate matches every span. -/
theorem search_spans_spec (t : Trace) (span_type : TypeArg) (name : NameArg)
    (span_id : Option String)
    (hname : ∀ u, name ≠ NameArg.invalid u) (htype : ∀ u, span_type ≠ TypeArg.invalid u) :
    Trace.search_spans t span_type name span_id =
        .ok (t.data.spans.filter fun s =>
          nameMatches name s && typeMatches span_type s && _match_id span_id s) ∧
      (t.data.spans.filter fun s =>
          nameMatches name s && typeMatches span_type s && _match_id span_id s).Sublist
        t.data.spans ∧
      ∀ s : Span,
        (nameMatches name s && typeMatches span_type s && _match_id span_id s) = true ↔
          NameSpec name s ∧ TypeSpec span_type s ∧ IdSpec span_id s := by
  refine ⟨searchSpansGo_valid name span_type span_id hname htype t.data.spans,
    List.filter_sublist _, ?_⟩
  intro s
  have h1 : nameMatches name s = true ↔ NameSpec name s := by
    cases name with
    | none => simp [nameMatches, NameSpec]
    | str x => simp [nameMatches, NameSpec]
    | pattern p => simpa [nameMatches, NameSpec] using RePattern.search_iff p s.name
    | invalid u => exact absurd rfl (hname u)
  have h2 : typeMatches span_type s = true ↔ TypeSpec span_type s := by
    cases span_type with
    | none => simp [typeMatches, TypeSpec]
    | str x => simp [typeMatches, TypeSpec]
    | invalid u => exact absurd rfl (htype u)
  have h3 : _match_id span_id s = true ↔ IdSpec span_id s := by
    cases span_id <;> simp [_match_id, IdSpec]
  simp only [Bool.and_eq_true, h1, h2, h3, and_assoc]

/-- C7 witness: on a concrete two-span trace, searching by the exact name
`add_one` returns exactly the matching span. -/
theorem search_spans_spec_witness :
    Trace.search_spans
        ⟨⟨"t1", Option.none, "OK", 0, 0, [], [], []⟩,
          ⟨"req", "resp",
            [⟨"s1", "add_one", "TOOL", 0, 1⟩, ⟨"s2", "add_two", "TOOL", 1, 2⟩]⟩⟩
        TypeArg.none (NameArg.str "add_one") Option.none =
      .ok [⟨"s1", "add_one", "TOOL", 0, 1⟩] :=
  ((search_spans_spec
      ⟨⟨"t1", Option.none, "OK", 0, 0, [], [], []⟩,
        ⟨"req", "resp",
          [⟨"s1", "add_one", "TOOL", 0, 1⟩, ⟨"s2", "add_two", "TOOL", 1, 2⟩]⟩⟩
      TypeArg.none (NameArg.str "add_one") Option.none
      (fun _ h => NameArg.noConfusion h) (fun _ h => TypeArg.noConfusion h)).1).trans (by rfl)

/-! ## Claim C2 (corrected) -/

/-- C2 counterexample: on a trace with no spans, `search_spans` with a `name`
of an invalid type (here an `int`) raises nothing — the list comprehension
never evaluates `_match_name`, so the call returns an empty list. -/
theorem search_spans_invalid_name_counterexample :
    Trace.search_spans ⟨⟨"t1", Option.none, "OK", 0, 0, [], [], []⟩, ⟨"req", "resp", []⟩⟩
        TypeArg.none (NameArg.invalid "<class 'int'>") Option.none = .ok [] := by
  rfl

/-- C2 amended: the predicate type checks run lazily, per span. On a trace
with at least one span, a `name` argument that is neither a string, a
compiled pattern nor absent raises the `MlflowException` (error code
`INVALID_PARAMETER_VALUE`) whose message identifies the offending type; a
`span_type` argument that is neither a string nor absent raises its
`MlflowException` identifying the offending type provided some span passes
the name filter. On a trace with no spans — or, for `span_type`, when no
span passes the name filter — the invalid argument is never inspected and
the call returns normally. -/
theorem search_spans_invalid_arg_error (t : Trace) (tyName : String) (st : TypeArg)
    (na : NameArg) (sid sid2 : Option String)
    (hspans : t.data.spans ≠ [])
    (hna : ∀ u, na ≠ NameArg.invalid u)
    (hmatch : ∃ s ∈ t.data.spans, nameMatches na s = true) :
    Trace.search_spans t st (NameArg.invalid tyName) sid =
        .error ⟨"Invalid type for 'name'. Expected str or re.Pattern. Got: " ++ tyName,
          INVALID_PARAMETER_VALUE⟩ ∧
      Trace.search_spans t (TypeArg.invalid tyName) na sid2 =
        .error ⟨"Invalid type for 'span_type'. Expected str or mlflow.entities.SpanType. Got: "
          ++ tyName, INVALID_PARAMETER_VALUE⟩ := by
  constructor
  · rcases hl : t.data.spans with _ | ⟨s, rest⟩
    · exact absurd hl hspans
    · rw [Trace.search_spans, hl]
      simp [searchSpansGo, _match_name, Bind.bind, Except.bind]
  · exact searchSpansGo_type_invalid na tyName sid2 hna t.data.spans hmatch

/-- C2 witness: on a one-span trace whose span passes the name filter, both
invalid arguments raise their respective errors. -/
theorem search_spans_invalid_arg_error_witness :
    Trace.search_spans
        ⟨⟨"t1", Option.none, "OK", 0, 0, [], [], []⟩,
          ⟨"req", "resp", [⟨"s1", "x", "TOOL", 0, 1⟩]⟩⟩
        TypeArg.none (NameArg.invalid "<class 'int'>") Option.none =
        .error ⟨"Invalid type for 'name'. Expected str or re.Pattern. Got: " ++ "<class 'int'>",
          INVALID_PARAMETER_VALUE⟩ ∧
      Trace.search_spans
          ⟨⟨"t1", Option.none, "OK", 0, 0, [], [], []⟩,
            ⟨"req", "resp", [⟨"s1", "x", "TOOL", 0, 1⟩]⟩⟩
          (TypeArg.invalid "<class 'int'>") (NameArg.str "x") Option.none =
        .error ⟨"Invalid type for 'span_type'. Expected str or mlflow.entities.SpanType. Got: "
          ++ "<class 'int'>", INVALID_PARAMETER_VALUE⟩ :=
  search_spans_invalid_arg_error
    ⟨⟨"t1", Option.none, "OK", 0, 0, [], [], []⟩,
      ⟨"req", "resp", [⟨"s1", "x", "TOOL", 0, 1⟩]⟩⟩
    "<class 'int'>" TypeArg.none (NameArg.str "x") Option.none Option.none
    (List.cons_ne_nil _ _) (fun _ h => NameArg.noConfusion h)
    ⟨⟨"s1", "x", "TOOL", 0, 1⟩, List.mem_singleton.mpr rfl, by rfl⟩

/-! ## Round-trip lemmas for serialization -/

/-- Elementwise parsing undoes elementwise serialization. -/
theorem exceptMapM_roundtrip {ε α β : Type} (g : β → α) (f : α → Except ε β)
    (h : ∀ b, f (g b) = .ok b) (l : List β) : exceptMapM f (l.map g) = .ok l := by
  induction l with
  | nil => rfl
  | cons b rest ih =>
      simp [exceptMapM, h b, Bind.bind, Except.bind, ih, pure, Except.pure]

/-- A nullable string round-trips. -/
theorem asOptStr_roundtrip (o : Option String) : Json.asOptStr (optStrJson o) = .ok o := by
  cases o <;> rfl

/-- A tri-state boolean round-trips. -/
theorem asOptBool_roundtrip (o : Option Bool) : Json.asOptBool (optBoolJson o) = .ok o := by
  cases o <;> rfl

/-- A span round-trips through its dict form. -/
theorem span_roundtrip (s : Span) : Span.from_dict (Span.to_dict s) = .ok s := by
  rcases s with ⟨a, b, c, d, e⟩
  rfl

/-- An assessment round-trips through its dict form. -/
theorem assessment_roundtrip (a : Assessment) :
    Assessment.from_dictionary (Assessment.to_dictionary a) = .ok a := by
  rcases a with ⟨nm, sid, vd, k⟩
  rcases sid with _ | sid <;> rcases vd with _ | vd <;> rcases k <;> rfl

/-- A string-to-string mapping round-trips through its JSON object form. -/
theorem strMap_roundtrip (m : List (String × String)) :
    Json.asStrMap (strMapJson m) = .ok m := by
  induction m with
  | nil => rfl
  | cons p rest ih =>
      obtain ⟨k, v⟩ := p
      have step : Json.asStrMap (strMapJson (⟨k, v⟩ :: rest)) =
          (Json.asStrMap (strMapJson rest)) >>= fun bs => pure ((k, v) :: bs) := rfl
      rw [step, ih]
      rfl

/-- `TraceData` round-trips through its dict form. -/
theorem trace_data_roundtrip (d : TraceData) :
    TraceData.from_dict (TraceData.to_dict d) = .ok d := by
  rcases d with ⟨req, resp, spans⟩
  have hs := exceptMapM_roundtrip Span.to_dict Span.from_dict span_roundtrip spans
  simp [TraceData.from_dict, TraceData.to_dict, Json.getKey, List.lookup, Json.asStr,
    Json.asArr, Bind.bind, Except.bind, pure, Except.pure, hs]

/-- `TraceInfo` round-trips through its dict form. -/
theorem trace_info_roundtrip (i : TraceInfo) :
    TraceInfo.from_dict (TraceInfo.to_dict i) = .ok i := by
  rcases i with ⟨tid, crid, st, rt, ed, md, tg, asmts⟩
  have ha := exceptMapM_roundtrip Assessment.to_dictionary Assessment.from_dictionary
    assessment_roundtrip asmts
  simp [TraceInfo.from_dict, TraceInfo.to_dict, Json.getKey, List.lookup, Json.asStr,
    Json.asNum, Json.asArr, asOptStr_roundtrip, strMap_roundtrip, Bind.bind, Except.bind,
    pure, Except.pure, ha]

/-! ## Claim C1 -/

/-- C1: every trace round-trips — `from_dict(to_dict(x))` and
`from_json(to_json(x))` reconstruct the trace with field-for-field equality
of `info` and `data` (structural equality of the `Trace`). -/
theorem trace_serialization_roundtrip (t : Trace) :
    Trace.from_dict (Trace.to_dict t) = .ok t ∧
      Trace.from_json (Trace.to_json t) = .ok t := by
  have h1 : Trace.from_dict (Trace.to_dict t) = .ok t := by
    obtain ⟨i, d⟩ := t
    have hinfo : pyDictGet (Trace.to_dict ⟨i, d⟩) "info" = Option.some (TraceInfo.to_dict i) :=
      rfl
    have hdata : pyDictGet (Trace.to_dict ⟨i, d⟩) "data" = Option.some (TraceData.to_dict d) :=
      rfl
    simp [Trace.from_dict, hinfo, hdata, Except.mapError, Bind.bind, Except.bind, pure,
      Except.pure, trace_info_roundtrip i, trace_data_roundtrip d]
  exact ⟨h1, h1⟩

/-! ## Claim C8 -/

/-- A key that is not among a dict's keys looks up to nothing. -/
theorem lookup_none_of_not_mem (k : String) (d : List (String × Json))
    (h : k ∉ d.map Prod.fst) : d.lookup k = Option.none := by
  induction d with
  | nil => rfl
  | cons p rest ih =>
      obtain ⟨a, b⟩ := p
      simp only [List.map_cons, List.mem_cons] at h
      push_neg at h
      simp [List.lookup, beq_eq_false_iff_ne.mpr h.1, ih h.2]

/-- C8: `from_dict` on a dict lacking the `info` key or the `data` key fails
with the `MlflowException` (error code `INVALID_PARAMETER_VALUE`) whose
message reports the list of keys actually present; when both keys are present
with well-formed values (values that are not null and that the entity parsers
accept) it constructs the `Trace` from them. -/
theorem trace_from_dict_keys (d : List (String × Json)) (i dd : Json) (ti : TraceInfo)
    (td : TraceData) :
    (("info" ∉ d.map Prod.fst ∨ "data" ∉ d.map Prod.fst) →
        Trace.from_dict d =
          .error (.mlflow ⟨"Unable to parse Trace from dictionary. Expected keys: 'info' and 'data'. "
            ++ "Received keys: " ++ pyKeysRepr d, INVALID_PARAMETER_VALUE⟩)) ∧
      (pyDictGet d "info" = Option.some i → pyDictGet d "data" = Option.some dd →
        TraceInfo.from_dict i = .ok ti → TraceData.from_dict dd = .ok td →
        Trace.from_dict d = .ok ⟨ti, td⟩) := by
  constructor
  · rintro (h | h)
    · have : pyDictGet d "info" = Option.none := by
        simp [pyDictGet, lookup_none_of_not_mem "info" d h]
      simp [Trace.from_dict, this]
    · have hdata : pyDictGet d "data" = Option.none := by
        simp [pyDictGet, lookup_none_of_not_mem "data" d h]
      rcases hinfo : pyDictGet d "info" with _ | v <;> simp [Trace.from_dict, hinfo, hdata]
  · intro h1 h2 h3 h4
    simp [Trace.from_dict, h1, h2, h3, h4, Except.mapError, Bind.bind, Except.bind, pure,
      Except.pure]

/-- C8 witness: `from_dict({"info": {...}})` (missing `data`) fails with the
error naming `['info']` as the received keys, and `from_dict` of a complete
well-formed dict reconstructs the trace. -/
theorem trace_from_dict_keys_witness :
    Trace.from_dict [("info", Json.obj [])] =
        .error (.mlflow ⟨"Unable to parse Trace from dictionary. Expected keys: 'info' and 'data'. "
          ++ "Received keys: " ++ pyKeysRepr [("info", Json.obj [])], INVALID_PARAMETER_VALUE⟩) ∧
      Trace.from_dict
          [("info", TraceInfo.to_dict ⟨"t1", Option.none, "OK", 0, 0, [], [], []⟩),
            ("data", TraceData.to_dict ⟨"req", "resp", []⟩)] =
        .ok ⟨⟨"t1", Option.none, "OK", 0, 0, [], [], []⟩, ⟨"req", "resp", []⟩⟩ :=
  ⟨(trace_from_dict_keys [("info", Json.obj [])] (Json.obj []) (Json.obj [])
      ⟨"t1", Option.none, "OK", 0, 0, [], [], []⟩ ⟨"req", "resp", []⟩).1
      (Or.inr (by simp)),
    (trace_from_dict_keys
      [("info", TraceInfo.to_dict ⟨"t1", Option.none, "OK", 0, 0, [], [], []⟩),
        ("data", TraceData.to_dict ⟨"req", "resp", []⟩)]
      (TraceInfo.to_dict ⟨"t1", Option.none, "OK", 0, 0, [], [], []⟩)
      (TraceData.to_dict ⟨"req", "resp", []⟩)
      ⟨"t1", Option.none, "OK", 0, 0, [], [], []⟩ ⟨"req", "resp", []⟩).2
      rfl rfl (by rfl) (by rfl)⟩

end Mlflow
